import Mathlib

/-!
Shallow embedding of the CDC event processor (repository: event-processor).

The embedding follows the Python source under `src/`:
- `app/models.py`        : JSON values, `DebeziumPayload` decode, `OutboxEvent`,
                           `ProcessingResult`;
- `app/handlers/*.py`    : the six concrete projection handlers over an
                           explicit in-memory projection store (the MongoDB
                           collections `users`, `activities`, `statistics`);
- `app/registry.py`      : the handler registry;
- `app/consumer.py`      : `process_message` and the `consume` loop, with an
                           explicit action trace (log events, offset commits).

Modelling conventions:
- Wall-clock values (`datetime.utcnow()`, processing time) are explicit
  parameters; each run of a handler receives the timestamp it would stamp.
- MongoDB single-document updates are atomic; `update_one`/`insert_one` are
  modelled as pure functions on a list of documents keyed by the id field.
- A raised Python exception inside a handler is modelled as `Except.error`;
  every handler in this repository performs at most one store write and
  raises only when that write matched nothing, so an erroring handler leaves
  the store unchanged.
- Python dict values are modelled by the `Json` type; `dict.get` with a
  missing key yields `Json.null` (Python `None`).
-/

/-- A JSON value, as produced by the consumer's `json.loads` value
deserializer.  Integers stand in for JSON numbers: no float payload is
exercised by the repository. -/
inductive Json where
  | null
  | str (s : String)
  | num (n : Int)
  | bool (b : Bool)
  | arr (elems : List Json)
  | obj (fields : List (String × Json))

mutual

/-- Structural equality of JSON values (used to model MongoDB value equality
inside array-set operators). -/
def Json.beq : Json → Json → Bool
  | .null, .null => true
  | .str a, .str b => a == b
  | .num a, .num b => a == b
  | .bool a, .bool b => a == b
  | .arr xs, .arr ys => Json.beqList xs ys
  | .obj xs, .obj ys => Json.beqObj xs ys
  | _, _ => false

def Json.beqList : List Json → List Json → Bool
  | [], [] => true
  | x :: xs, y :: ys => Json.beq x y && Json.beqList xs ys
  | _, _ => false

def Json.beqObj : List (String × Json) → List (String × Json) → Bool
  | [], [] => true
  | (k, v) :: xs, (l, w) :: ys => k == l && Json.beq v w && Json.beqObj xs ys
  | _, _ => false

end

instance : BEq Json := ⟨Json.beq⟩

/-- Key lookup in a JSON object / Python dict (keys are unique). -/
def jlookup (fields : List (String × Json)) (k : String) : Option Json :=
  match fields with
  | [] => none
  | (k', v) :: rest => if k' = k then some v else jlookup rest k

/-- Python `k in payload`. -/
def containsKey (fields : List (String × Json)) (k : String) : Bool :=
  (jlookup fields k).isSome

/-- Python `payload.get(k)` (missing key yields `None`). -/
def pget (fields : List (String × Json)) (k : String) : Json :=
  (jlookup fields k).getD Json.null

/-- Python `payload.get(k, d)`. -/
def pgetD (fields : List (String × Json)) (k : String) (d : Json) : Json :=
  (jlookup fields k).getD d

/-- Python `str()` / f-string rendering of a payload value, as used by the
handlers' `name` interpolation.  The repository only interpolates strings;
container rendering is abstracted to a fixed token. -/
def pyStr : Json → String
  | .null => "None"
  | .str s => s
  | .num n => toString n
  | .bool b => cond b "True" "False"
  | .arr _ => "<list>"
  | .obj _ => "<dict>"

/-- Python `str.strip()` on the character list: drop leading and trailing
whitespace (structurally recursive so that concrete values reduce). -/
def stripChars (cs : List Char) : List Char :=
  ((cs.dropWhile Char.isWhitespace).reverse.dropWhile Char.isWhitespace).reverse

/-- Python `str.strip()`. -/
def pyStrip (s : String) : String := ⟨stripChars s.data⟩

/-- `models.py` : the Debezium CDC envelope (`DebeziumPayload`). -/
structure DebeziumPayload where
  op : String
  ts_ms : Int
  before : Option (List (String × Json))
  after : List (String × Json)
  source : List (String × Json)

/-- Why a raw record failed to decode into a `DebeziumPayload`. -/
inductive DecodeError where
  | malformedJson
  | notAnObject
  | missingField (name : String)
  | wrongType (name : String)
deriving DecidableEq

/-- A raw Kafka record value: either bytes that `json.loads` rejects, or the
parsed JSON value. -/
inductive RawValue where
  | malformed
  | json (j : Json)

/-- Decimal digits to a number; `none` on a non-digit. -/
def digitsToNat (cs : List Char) (acc : Nat) : Option Nat :=
  match cs with
  | [] => some acc
  | c :: rest =>
    if c.isDigit then digitsToNat rest (acc * 10 + (c.toNat - 48)) else none

/-- An integer literal (optional sign, decimal digits), as pydantic's
lax-mode numeric-string coercion accepts it. -/
def parseIntStr (s : String) : Option Int :=
  match s.data with
  | [] => none
  | '-' :: rest =>
    match rest with
    | [] => none
    | _ => (digitsToNat rest 0).map fun n => -(n : Int)
  | '+' :: rest =>
    match rest with
    | [] => none
    | _ => (digitsToNat rest 0).map fun n => (n : Int)
  | cs => (digitsToNat cs 0).map fun n => (n : Int)

/-- Pydantic v2 lax-mode coercion of a JSON value to an integer field:
integers pass through and numeric strings are parsed (`ts_ms = "5"` is
accepted by `models.py`).  Floats do not occur in this `Json` model; other
inputs are rejected.  The exact rejection frontier of exotic inputs is not
relied on by any theorem: the theorems below evaluate the decode only on
records with a missing key or with exactly-typed values. -/
def coerceInt : Json → Option Int
  | .num n => some n
  | .str s => parseIntStr s
  | _ => none

/-- Whether a JSON value is an object. -/
def Json.isObj : Json → Bool
  | .obj _ => true
  | _ => false

/-- The validation of a `DebeziumPayload` record after `op` and `ts_ms` have
been read: `after` and `source` must be objects, `before` absent, null or an
object. -/
def decodeRest (fields : List (String × Json)) (op : String) (ts : Int) :
    Except DecodeError DebeziumPayload :=
  match jlookup fields "after" with
  | none => .error (.missingField "after")
  | some (.obj after) =>
    match jlookup fields "source" with
    | none => .error (.missingField "source")
    | some (.obj source) =>
      match jlookup fields "before" with
      | none => .ok ⟨op, ts, none, after, source⟩
      | some .null => .ok ⟨op, ts, none, after, source⟩
      | some (.obj before) => .ok ⟨op, ts, some before, after, source⟩
      | some _ => .error (.wrongType "before")
    | some _ => .error (.wrongType "source")
  | some _ => .error (.wrongType "after")

/-- Pydantic validation of `DebeziumPayload(**value)` (`models.py`):
`op` must be a string, `ts_ms` an integer (with the lax numeric-string
coercion of `coerceInt`), `after` and `source` objects, `before` optional
(absent, null or an object). -/
def decodeJson (v : Json) : Except DecodeError DebeziumPayload :=
  match v with
  | .obj fields =>
    match jlookup fields "op" with
    | none => .error (.missingField "op")
    | some (.str op) =>
      match jlookup fields "ts_ms" with
      | none => .error (.missingField "ts_ms")
      | some tsv =>
        match coerceInt tsv with
        | some ts => decodeRest fields op ts
        | none => .error (.wrongType "ts_ms")
    | some _ => .error (.wrongType "op")
  | _ => .error .notAnObject

/-- The composite decode contract of the spec: bytes → envelope.  `json.loads`
is abstracted to the `RawValue` split. -/
def decodeValue (r : RawValue) : Except DecodeError DebeziumPayload :=
  match r with
  | .malformed => .error .malformedJson
  | .json j => decodeJson j

/-- `models.py` : `EventStatus`. -/
inductive EventStatus where
  | pending
  | processing
  | processed
  | failed
deriving DecidableEq

/-- `models.py` : `OutboxEvent`.  UUID and datetime fields are carried as
strings; their format validation is not exercised by any claim. -/
structure OutboxEvent where
  event_id : String
  sequence_id : Int
  aggregate_id : String
  aggregate_type : String
  event_type : String
  payload : List (String × Json)
  status : EventStatus
  retry_count : Int
  last_error : Option String
  lock_id : Option String
  created_at : String
  published_at : Option String

/-- Why `after` failed to validate as an `OutboxEvent`. -/
inductive ValidationError where
  | missingField (name : String)
  | wrongType (name : String)
deriving DecidableEq

/-- Parse an `EventStatus` string. -/
def parseStatus (s : String) : Option EventStatus :=
  if s = "pending" then some .pending
  else if s = "processing" then some .processing
  else if s = "processed" then some .processed
  else if s = "failed" then some .failed
  else none

/-- A required string field of `after`. -/
def reqStr (after : List (String × Json)) (k : String) :
    Except ValidationError String :=
  match jlookup after k with
  | none => .error (.missingField k)
  | some (.str s) => .ok s
  | some _ => .error (.wrongType k)

/-- `models.py` : `DebeziumPayload.to_outbox_event`, i.e.
`OutboxEvent(**self.after)` with pydantic validation of the required event
fields. -/
def DebeziumPayload.to_outbox_event (p : DebeziumPayload) :
    Except ValidationError OutboxEvent := do
  let event_id ← reqStr p.after "event_id"
  let sequence_id ←
    match jlookup p.after "sequence_id" with
    | none => .error (.missingField "sequence_id")
    | some (.num n) => .ok n
    | some _ => .error (.wrongType "sequence_id")
  let aggregate_id ← reqStr p.after "aggregate_id"
  let aggregate_type ← reqStr p.after "aggregate_type"
  let event_type ← reqStr p.after "event_type"
  let payload ←
    match jlookup p.after "payload" with
    | none => .error (.missingField "payload")
    | some (.obj fields) => .ok fields
    | some _ => .error (.wrongType "payload")
  let status ←
    match jlookup p.after "status" with
    | none => .error (.missingField "status")
    | some (.str s) =>
      match parseStatus s with
      | some st => Except.ok st
      | none => .error (.wrongType "status")
    | some _ => .error (.wrongType "status")
  let retry_count ←
    match jlookup p.after "retry_count" with
    | none => .ok 0
    | some (.num n) => .ok n
    | some _ => .error (.wrongType "retry_count")
  let last_error ←
    match jlookup p.after "last_error" with
    | none => .ok none
    | some .null => .ok none
    | some (.str s) => .ok (some s)
    | some _ => .error (.wrongType "last_error")
  let lock_id ←
    match jlookup p.after "lock_id" with
    | none => .ok none
    | some .null => .ok none
    | some (.str s) => .ok (some s)
    | some _ => .error (.wrongType "lock_id")
  let created_at ← reqStr p.after "created_at"
  let published_at ←
    match jlookup p.after "published_at" with
    | none => .ok none
    | some .null => .ok none
    | some (.str s) => .ok (some s)
    | some _ => .error (.wrongType "published_at")
  return { event_id, sequence_id, aggregate_id, aggregate_type, event_type,
           payload, status, retry_count, last_error, lock_id, created_at,
           published_at }

/-! ## Projection documents (the MongoDB collections) -/

/-- The `metadata` sub-document of a projection document. -/
structure DocMetadata where
  created_at : String
  updated_at : String
  source_event_id : Option String
  last_event_id : Option String

/-- The `profile` sub-document of a user document. -/
structure UserProfile where
  bio : Json
  avatar_url : Json

/-- A document of the `users` collection (`user_handlers.py`). -/
structure UserDoc where
  _id : String
  email : Json
  username : Json
  name : String
  first_name : Json
  last_name : Json
  profile : UserProfile
  metadata : DocMetadata
  allowed_users : List String

/-- The `location` sub-document of an activity document. -/
structure ActivityLocation where
  name : Json
  address : Json
  coordinates : Json

/-- The `schedule` sub-document of an activity document. -/
structure ActivitySchedule where
  start_date : Json
  end_date : Json
  timezone : Json

/-- One entry of `participants.list`. -/
structure Participant where
  user_id : Json
  joined_at : String
  status : String

/-- MongoDB value equality on participant entries, for `addToSet` below. -/
def Participant.beq (a b : Participant) : Bool :=
  Json.beq a.user_id b.user_id && a.joined_at == b.joined_at && a.status == b.status

instance : BEq Participant := ⟨Participant.beq⟩

/-- The `participants` sub-document of an activity document. -/
structure ActivityParticipants where
  current_count : Int
  max_count : Json
  list : List Participant

/-- A document of the `activities` collection (`activity_handlers.py`).
The source field `type` is spelled `type'` (Lean keyword). -/
structure ActivityDoc where
  _id : String
  title : Json
  description : Json
  creator_id : Json
  type' : Json
  location : ActivityLocation
  schedule : ActivitySchedule
  participants : ActivityParticipants
  status : Json
  metadata : DocMetadata
  allowed_users : List Json

/-- The `global_stats` document of the `statistics` collection. -/
structure StatsDoc where
  _id : String
  total_users : Int
  last_updated : String

/-! ## MongoDB operations on an in-memory collection -/

/-- An exception raised out of a handler's `handle`: either pymongo's
`DuplicateKeyError` from `insert_one` on an existing `_id`, or a Python
`ValueError` raised by the handler itself. -/
inductive HandlerError where
  | duplicateKeyError
  | valueError (msg : String)
deriving DecidableEq

/-- `insert_one` on a collection with a unique `_id` index: fails with
`DuplicateKeyError` when a document with the same id exists. -/
def insertOne {α : Type} (getId : α → String) (coll : List α) (doc : α) :
    Except HandlerError (List α) :=
  if coll.any (fun d => getId d == getId doc) then .error .duplicateKeyError
  else .ok (coll ++ [doc])

/-- `update_one` with filter `{_id: i}`: applies `f` to the first matching
document; returns the collection and `matched_count` (0 or 1). -/
def updateOne {α : Type} (getId : α → String) (coll : List α) (i : String)
    (f : α → α) : List α × Nat :=
  match coll with
  | [] => ([], 0)
  | d :: rest =>
    if getId d = i then (f d :: rest, 1)
    else
      let (rest', n) := updateOne getId rest i f
      (d :: rest', n)

/-- `update_one` with `upsert=True`: when nothing matched, insert `mk`. -/
def updateOneUpsert {α : Type} (getId : α → String) (coll : List α) (i : String)
    (f : α → α) (mk : α) : List α :=
  let (coll', n) := updateOne getId coll i f
  if n = 0 then coll ++ [mk] else coll'

/-- MongoDB `$addToSet`: append the value to the array unless an equal value
is already present. -/
def addToSet {α : Type} [BEq α] (xs : List α) (a : α) : List α :=
  if xs.contains a then xs else xs ++ [a]

/-- The projection store: the three MongoDB collections written by the
handlers. -/
structure ProjectionStore where
  users : List UserDoc
  activities : List ActivityDoc
  statistics : List StatsDoc

/-- The store of a fresh database. -/
def emptyStore : ProjectionStore := ⟨[], [], []⟩

/-! ## Concrete handlers (`user_handlers.py`, `activity_handlers.py`)

Each `handle` takes the event, the current wall-clock string (the value
`datetime.utcnow()` would stamp) and the store; a raised exception is an
`Except.error`. -/

namespace UserCreatedHandler

/-- The local `user_doc` built by `UserCreatedHandler.handle` from the event
payload. -/
def user_doc (event : OutboxEvent) (now : String) : UserDoc :=
  let payload := event.payload
  { _id := event.aggregate_id
    email := pget payload "email"
    username := pget payload "username"
    name := pyStrip (pyStr (pgetD payload "first_name" (.str "")) ++ " " ++
             pyStr (pgetD payload "last_name" (.str "")))
    first_name := pget payload "first_name"
    last_name := pget payload "last_name"
    profile := { bio := pget payload "bio", avatar_url := pget payload "avatar_url" }
    metadata := { created_at := event.created_at, updated_at := now,
                  source_event_id := some event.event_id, last_event_id := none }
    allowed_users := [event.aggregate_id] }

/-- `UserCreatedHandler.handle`: build the user document and `insert_one` it
into `users`. -/
def handle (event : OutboxEvent) (now : String) (s : ProjectionStore) :
    Except HandlerError ProjectionStore :=
  match insertOne (fun d => d._id) s.users (user_doc event now) with
  | .error e => .error e
  | .ok users' => .ok { s with users := users' }

end UserCreatedHandler

/-- The `$set` document built by `UserUpdatedHandler.handle` (`update_fields`):
`some` marks a key present in the update-set. -/
structure UserUpdateFields where
  email : Option Json
  username : Option Json
  name : Option String
  first_name : Option Json
  last_name : Option Json
  profile_bio : Option Json
  profile_avatar_url : Option Json
  metadata_updated_at : String
  metadata_last_event_id : String

/-- The `update_fields` construction of `UserUpdatedHandler.handle`, key by
key in source order. -/
def buildUserUpdateFields (payload : List (String × Json)) (now eid : String) :
    UserUpdateFields :=
  let u : UserUpdateFields :=
    { email := none, username := none, name := none, first_name := none,
      last_name := none, profile_bio := none, profile_avatar_url := none,
      metadata_updated_at := now, metadata_last_event_id := eid }
  let u := if containsKey payload "email" then
      { u with email := some (pget payload "email") } else u
  let u := if containsKey payload "username" then
      { u with username := some (pget payload "username") } else u
  let u := if containsKey payload "first_name" || containsKey payload "last_name" then
      let first_name := pgetD payload "first_name" (.str "")
      let last_name := pgetD payload "last_name" (.str "")
      { u with name := some (pyStrip (pyStr first_name ++ " " ++ pyStr last_name)),
               first_name := some first_name, last_name := some last_name }
    else u
  let u := if containsKey payload "bio" then
      { u with profile_bio := some (pget payload "bio") } else u
  let u := if containsKey payload "avatar_url" then
      { u with profile_avatar_url := some (pget payload "avatar_url") } else u
  u

/-- Apply the `$set` update document to a user document (MongoDB dotted-path
semantics: only listed paths change). -/
def applyUserSet (u : UserUpdateFields) (d : UserDoc) : UserDoc :=
  let profile' : UserProfile :=
    { bio := u.profile_bio.getD d.profile.bio
      avatar_url := u.profile_avatar_url.getD d.profile.avatar_url }
  let metadata' : DocMetadata :=
    { d.metadata with
      updated_at := u.metadata_updated_at
      last_event_id := some u.metadata_last_event_id }
  { d with
    email := u.email.getD d.email
    username := u.username.getD d.username
    name := u.name.getD d.name
    first_name := u.first_name.getD d.first_name
    last_name := u.last_name.getD d.last_name
    profile := profile'
    metadata := metadata' }

namespace UserUpdatedHandler

/-- `UserUpdatedHandler.handle`: build `update_fields`, `update_one` the user
document, raise `ValueError` when nothing matched. -/
def handle (event : OutboxEvent) (now : String) (s : ProjectionStore) :
    Except HandlerError ProjectionStore :=
  let result := updateOne (fun d => d._id) s.users event.aggregate_id
    (applyUserSet (buildUserUpdateFields event.payload now event.event_id))
  if result.2 = 0 then
    .error (.valueError ("User not found: " ++ event.aggregate_id))
  else .ok { s with users := result.1 }

end UserUpdatedHandler

namespace UserStatisticsHandler

/-- `UserStatisticsHandler.handle`: `$inc total_users`, `$set last_updated`
on `global_stats`, with upsert. -/
def handle (_event : OutboxEvent) (now : String) (s : ProjectionStore) :
    Except HandlerError ProjectionStore :=
  let stats' := updateOneUpsert (fun d => d._id) s.statistics "global_stats"
    (fun d => { d with total_users := d.total_users + 1, last_updated := now })
    { _id := "global_stats", total_users := 1, last_updated := now }
  .ok { s with statistics := stats' }

end UserStatisticsHandler

namespace ActivityCreatedHandler

/-- The local `activity_doc` built by `ActivityCreatedHandler.handle` from
the event payload. -/
def activity_doc (event : OutboxEvent) (now : String) : ActivityDoc :=
  let payload := event.payload
  { _id := event.aggregate_id
    title := pget payload "title"
    description := pget payload "description"
    creator_id := pget payload "creator_user_id"
    type' := pget payload "activity_type"
    location := { name := pget payload "location_name"
                  address := pget payload "location_address"
                  coordinates := pget payload "coordinates" }
    schedule := { start_date := pget payload "start_date"
                  end_date := pget payload "end_date"
                  timezone := pget payload "timezone" }
    participants := { current_count := 0
                      max_count := pget payload "max_participants"
                      list := [] }
    status := .str "active"
    metadata := { created_at := event.created_at, updated_at := now,
                  source_event_id := some event.event_id, last_event_id := none }
    allowed_users := [pget payload "creator_user_id"] }

/-- `ActivityCreatedHandler.handle`: build the activity document and
`insert_one` it into `activities`. -/
def handle (event : OutboxEvent) (now : String) (s : ProjectionStore) :
    Except HandlerError ProjectionStore :=
  match insertOne (fun d => d._id) s.activities (activity_doc event now) with
  | .error e => .error e
  | .ok activities' => .ok { s with activities := activities' }

end ActivityCreatedHandler

namespace ParticipantJoinedHandler

/-- The single MongoDB update command of `ParticipantJoinedHandler.handle`:
`$addToSet` on `participants.list` and `allowed_users`, `$inc` on
`participants.current_count`, `$set` on the metadata. -/
def updateDoc (user_id : Json) (joined_at now eid : String) (d : ActivityDoc) :
    ActivityDoc :=
  let entry : Participant := { user_id := user_id, joined_at := joined_at,
                               status := "confirmed" }
  { d with
    participants :=
      { d.participants with
        list := addToSet d.participants.list entry
        current_count := d.participants.current_count + 1 }
    allowed_users := addToSet d.allowed_users user_id
    metadata := { d.metadata with updated_at := now, last_event_id := some eid } }

/-- `ParticipantJoinedHandler.handle`: one `update_one` on the activity
document; raise `ValueError` when nothing matched. -/
def handle (event : OutboxEvent) (now : String) (s : ProjectionStore) :
    Except HandlerError ProjectionStore :=
  let result := updateOne (fun d => d._id) s.activities event.aggregate_id
    (updateDoc (pget event.payload "user_id") event.created_at now event.event_id)
  if result.2 = 0 then
    .error (.valueError ("Activity not found: " ++ event.aggregate_id))
  else .ok { s with activities := result.1 }

end ParticipantJoinedHandler

/-- The `$set` document built by `ActivityUpdatedHandler.handle`. -/
structure ActivityUpdateFields where
  title : Option Json
  description : Option Json
  status : Option Json
  location_name : Option Json
  location_address : Option Json
  metadata_updated_at : String
  metadata_last_event_id : String

/-- The `update_fields` construction of `ActivityUpdatedHandler.handle`. -/
def buildActivityUpdateFields (payload : List (String × Json)) (now eid : String) :
    ActivityUpdateFields :=
  let u : ActivityUpdateFields :=
    { title := none, description := none, status := none, location_name := none,
      location_address := none, metadata_updated_at := now,
      metadata_last_event_id := eid }
  let u := if containsKey payload "title" then
      { u with title := some (pget payload "title") } else u
  let u := if containsKey payload "description" then
      { u with description := some (pget payload "description") } else u
  let u := if containsKey payload "status" then
      { u with status := some (pget payload "status") } else u
  let u := if containsKey payload "location_name" then
      { u with location_name := some (pget payload "location_name") } else u
  let u := if containsKey payload "location_address" then
      { u with location_address := some (pget payload "location_address") } else u
  u

/-- Apply the `$set` update document to an activity document. -/
def applyActivitySet (u : ActivityUpdateFields) (d : ActivityDoc) : ActivityDoc :=
  let location' : ActivityLocation :=
    { d.location with
      name := u.location_name.getD d.location.name
      address := u.location_address.getD d.location.address }
  let metadata' : DocMetadata :=
    { d.metadata with
      updated_at := u.metadata_updated_at
      last_event_id := some u.metadata_last_event_id }
  { d with
    title := u.title.getD d.title
    description := u.description.getD d.description
    status := u.status.getD d.status
    location := location'
    metadata := metadata' }

namespace ActivityUpdatedHandler

/-- `ActivityUpdatedHandler.handle`: build `update_fields`, `update_one` the
activity document, raise `ValueError` when nothing matched. -/
def handle (event : OutboxEvent) (now : String) (s : ProjectionStore) :
    Except HandlerError ProjectionStore :=
  let result := updateOne (fun d => d._id) s.activities event.aggregate_id
    (applyActivitySet (buildActivityUpdateFields event.payload now event.event_id))
  if result.2 = 0 then
    .error (.valueError ("Activity not found: " ++ event.aggregate_id))
  else .ok { s with activities := result.1 }

end ActivityUpdatedHandler

/-! ## Handler interface and registry (`handlers/base.py`, `registry.py`) -/

/-- The polymorphic handler contract of `BaseEventHandler`: dispatch key,
name, `validate` (default `true`) and `handle`. -/
structure Handler where
  event_type : String
  handler_name : String
  validate : OutboxEvent → Bool
  handle : OutboxEvent → String → ProjectionStore → Except HandlerError ProjectionStore

/-- `UserCreatedHandler` as registered (default `validate`). -/
def userCreatedHandler : Handler :=
  ⟨"UserCreated", "UserCreatedHandler", fun _ => true, UserCreatedHandler.handle⟩

/-- `UserStatisticsHandler` as registered (also listens to `UserCreated`). -/
def userStatisticsHandler : Handler :=
  ⟨"UserCreated", "UserStatisticsHandler", fun _ => true, UserStatisticsHandler.handle⟩

/-- `UserUpdatedHandler` as registered. -/
def userUpdatedHandler : Handler :=
  ⟨"UserUpdated", "UserUpdatedHandler", fun _ => true, UserUpdatedHandler.handle⟩

/-- `ActivityCreatedHandler` as registered. -/
def activityCreatedHandler : Handler :=
  ⟨"ActivityCreated", "ActivityCreatedHandler", fun _ => true, ActivityCreatedHandler.handle⟩

/-- `ActivityUpdatedHandler` as registered. -/
def activityUpdatedHandler : Handler :=
  ⟨"ActivityUpdated", "ActivityUpdatedHandler", fun _ => true, ActivityUpdatedHandler.handle⟩

/-- `ParticipantJoinedHandler` as registered. -/
def participantJoinedHandler : Handler :=
  ⟨"ParticipantJoined", "ParticipantJoinedHandler", fun _ => true, ParticipantJoinedHandler.handle⟩

/-- The registry's map `event_type → ordered list of handlers`, as an
association list in first-registration order. -/
def HandlerRegistry := List (String × List Handler)

/-- `HandlerRegistry.register`: append the handler to the list for its
`event_type`, creating the entry on first registration. -/
def registryRegister (r : HandlerRegistry) (h : Handler) : HandlerRegistry :=
  match r with
  | [] => [(h.event_type, [h])]
  | (et, hs) :: rest =>
    if et = h.event_type then (et, hs ++ [h]) :: rest
    else (et, hs) :: registryRegister rest h

/-- `HandlerRegistry.get_handlers`: the list for the event type, possibly
empty. -/
def registryGetHandlers (r : HandlerRegistry) (event_type : String) : List Handler :=
  match r with
  | [] => []
  | (et, hs) :: rest => if et = event_type then hs else registryGetHandlers rest event_type

/-- `registry.py` `_initialize_handlers`: the global registry with the six
handlers registered in source order. -/
def handler_registry : HandlerRegistry :=
  List.foldl registryRegister []
    [userCreatedHandler, userStatisticsHandler, userUpdatedHandler,
     activityCreatedHandler, activityUpdatedHandler, participantJoinedHandler]

/-! ## Consumer / dispatcher (`consumer.py`) -/

/-- `models.py` : `ProcessingResult`.  `processing_time_ms` is carried as an
integer number of milliseconds. -/
structure ProcessingResult where
  success : Bool
  event_id : String
  event_type : String
  handler_name : String
  error : Option String
  processing_time_ms : Int
deriving DecidableEq

/-- A Kafka `ConsumerRecord` after the `json.loads` value deserializer of
`EventConsumer.initialize` has run. -/
structure KafkaMessage where
  value : Json
  partition : Int
  offset : Int

/-- The observable actions of the per-record protocol: the structured log
events of `consumer.py` plus the offset commits of the `consume` loop. -/
inductive ConsumerAction where
  | messageSkipped
  | processingFailed
  | noHandlersFound (event_type : String)
  | validationFailed (handler : String)
  | handlerInvoked (handler : String)
  | handlerFailed (handler : String)
  | eventProcessed (event_type : String)
  | committed (offset : Int)
deriving DecidableEq

/-- Whether an action is an offset commit. -/
def ConsumerAction.isCommit : ConsumerAction → Bool
  | .committed _ => true
  | _ => false

/-- The consumer's mutable state: the projection store reached through the
handlers, `_processing_count` and `_error_count`. -/
structure ConsumerState where
  store : ProjectionStore
  processing_count : Nat
  error_count : Nat

/-- The per-handler loop of `EventConsumer.process_message` (lines 126-151):
`validate`, then `handle`; an exception is logged as `handler_failed`,
increments the error counter, and processing continues with the next
handler.  An erroring handler leaves the store unchanged (see the module
comment).  Returns the store, the error counter, and the trace. -/
def runHandlers (hs : List Handler) (event : OutboxEvent) (now : String)
    (store : ProjectionStore) (errors : Nat) :
    ProjectionStore × Nat × List ConsumerAction :=
  match hs with
  | [] => (store, errors, [])
  | h :: rest =>
    match h.validate event with
    | false =>
      let r := runHandlers rest event now store errors
      (r.1, r.2.1, .validationFailed h.handler_name :: r.2.2)
    | true =>
      match h.handle event now store with
      | .ok store1 =>
        let r := runHandlers rest event now store1 errors
        (r.1, r.2.1, .handlerInvoked h.handler_name :: r.2.2)
      | .error _ =>
        let r := runHandlers rest event now store (errors + 1)
        (r.1, r.2.1,
          .handlerInvoked h.handler_name :: .handlerFailed h.handler_name :: r.2.2)

/-- `EventConsumer.process_message`: decode the Debezium payload, skip `d`/`r`
operations, convert to an `OutboxEvent`, look up handlers, run them, account
the processed counter and build the `ProcessingResult`.  Any exception of the
surrounding `try` (pydantic decode or event validation) is logged as
`message_processing_failed` and counted as an error.  `now` is the wall-clock
stamp handed to handlers, `elapsed_ms` the measured processing time. -/
def process_message (registry : HandlerRegistry) (m : KafkaMessage)
    (now : String) (elapsed_ms : Int) (s : ConsumerState) :
    ConsumerState × Option ProcessingResult × List ConsumerAction :=
  match decodeJson m.value with
  | .error _ =>
    ({ s with error_count := s.error_count + 1 }, none, [.processingFailed])
  | .ok debezium_payload =>
    if debezium_payload.op = "d" ∨ debezium_payload.op = "r" then
      (s, none, [.messageSkipped])
    else
      match debezium_payload.to_outbox_event with
      | .error _ =>
        ({ s with error_count := s.error_count + 1 }, none, [.processingFailed])
      | .ok event =>
        let handlers := registryGetHandlers registry event.event_type
        if handlers.isEmpty then
          (s, none, [.noHandlersFound event.event_type])
        else
          let r := runHandlers handlers event now s.store s.error_count
          let s' : ConsumerState :=
            { store := r.1, processing_count := s.processing_count + 1,
              error_count := r.2.1 }
          (s', some { success := true, event_id := event.event_id,
                      event_type := event.event_type, handler_name := "multiple",
                      error := none, processing_time_ms := elapsed_ms },
           r.2.2 ++ [.eventProcessed event.event_type])

/-- The configuration fields of `config.py` read by the consume loop, with
their defaults. -/
structure Settings where
  kafka_enable_auto_commit : Bool

/-- `config.py` defaults: manual offset commit. -/
def settings : Settings := { kafka_enable_auto_commit := false }

/-- The body of `EventConsumer.consume` (lines 195-205) over the sequence of
records the Kafka iterator yields while `running` stays true: process each
message, then commit its offset when auto-commit is disabled.  Returns the
final consumer state and the full action trace. -/
def consume (stg : Settings) (registry : HandlerRegistry) (now : String)
    (elapsed_ms : Int) (msgs : List KafkaMessage) (s : ConsumerState) :
    ConsumerState × List ConsumerAction :=
  match msgs with
  | [] => (s, [])
  | m :: rest =>
    let r := process_message registry m now elapsed_ms s
    let commitTr := if stg.kafka_enable_auto_commit = false
      then [ConsumerAction.committed m.offset] else []
    let rest' := consume stg registry now elapsed_ms rest r.1
    (rest'.1, r.2.2 ++ commitTr ++ rest'.2)

/-- The dispatcher's treatment of one handler run seen from the store: an
exception is caught and the store keeps its previous value (the
`except` branch of the per-handler loop). -/
def applyHandle
    (h : OutboxEvent → String → ProjectionStore → Except HandlerError ProjectionStore)
    (event : OutboxEvent) (now : String) (s : ProjectionStore) : ProjectionStore :=
  match h event now s with
  | .ok s' => s'
  | .error _ => s

/-! ## Sample inputs (used by concrete theorems and witnesses) -/

/-- A sample `UserCreated` payload. -/
def sampleUserPayload : List (String × Json) :=
  [("user_id", .str "u1"), ("email", .str "a@x"), ("username", .str "a"),
   ("first_name", .str "A"), ("last_name", .str "B")]

/-- A sample `UserCreated` event. -/
def eUserCreated : OutboxEvent :=
  { event_id := "e1", sequence_id := 1, aggregate_id := "u1",
    aggregate_type := "User", event_type := "UserCreated",
    payload := sampleUserPayload, status := .pending, retry_count := 0,
    last_error := none, lock_id := none, created_at := "2024-01-01T00:00:00",
    published_at := none }

/-- A sample `ActivityCreated` payload. -/
def sampleActivityPayload : List (String × Json) :=
  [("title", .str "Run"), ("creator_user_id", .str "u0"),
   ("max_participants", .num 10)]

/-- A sample `ActivityCreated` event. -/
def eActivityCreated : OutboxEvent :=
  { event_id := "e2", sequence_id := 2, aggregate_id := "a1",
    aggregate_type := "Activity", event_type := "ActivityCreated",
    payload := sampleActivityPayload, status := .pending, retry_count := 0,
    last_error := none, lock_id := none, created_at := "2024-01-01T00:00:00",
    published_at := none }

/-- A sample `ParticipantJoined` event for activity `a1`, user `u1`. -/
def eParticipantJoined : OutboxEvent :=
  { event_id := "e3", sequence_id := 3, aggregate_id := "a1",
    aggregate_type := "Activity", event_type := "ParticipantJoined",
    payload := [("user_id", .str "u1")], status := .pending, retry_count := 0,
    last_error := none, lock_id := none, created_at := "2024-01-02T00:00:00",
    published_at := none }

/-- The store after creating activity `a1`. -/
def storeA1 : ProjectionStore :=
  applyHandle ActivityCreatedHandler.handle eActivityCreated "t1" emptyStore

/-- `storeA1` after the first delivery of `eParticipantJoined`. -/
def storeA1J1 : ProjectionStore :=
  applyHandle ParticipantJoinedHandler.handle eParticipantJoined "t2" storeA1

/-- `storeA1J1` after replaying the same `eParticipantJoined`. -/
def storeA1J2 : ProjectionStore :=
  applyHandle ParticipantJoinedHandler.handle eParticipantJoined "t3" storeA1J1

/-! ## Theorems -/

/-- C1: the claim (spec property P6) requires that replaying
`ParticipantJoined` for the same `(activity_id, user_id)` leaves
`participants.current_count` at its value after the first application.
The code (`ParticipantJoinedHandler.handle`, `activity_handlers.py` 96-117)
issues `$addToSet` and an unconditional `$inc` in one update, so the replay
leaves `participants.list` and `allowed_users` unchanged in size but
increments the counter again: after the second delivery of the same event
the counter is 2 while the participant list still has exactly one entry.
The spec itself flags this double-count as a defect of the source (§9,
open questions), so the code, not the claim, is wrong. -/
theorem participantJoined_replay_double_counts :
    (storeA1J1.activities.map fun d => d.participants.current_count) = [1] ∧
    (storeA1J2.activities.map fun d => d.participants.current_count) = [2] ∧
    (storeA1J1.activities.map fun d => d.participants.list.length) = [1] ∧
    (storeA1J2.activities.map fun d => d.participants.list.length) = [1] ∧
    (storeA1J1.activities.map fun d => d.allowed_users.length) = [2] ∧
    (storeA1J2.activities.map fun d => d.allowed_users.length) = [2] := by
  refine ⟨?_, ?_, ?_, ?_, ?_, ?_⟩ <;> decide

/-- The store after creating user `u1`. -/
def storeU1 : ProjectionStore :=
  applyHandle UserCreatedHandler.handle eUserCreated "t1" emptyStore

/-- A successful `insert_one` appends the document. -/
theorem insertOne_ok {α : Type} (getId : α → String) (coll : List α) (doc : α)
    (coll' : List α) (h : insertOne getId coll doc = .ok coll') :
    coll' = coll ++ [doc] := by
  unfold insertOne at h
  split at h
  · exact absurd h (by simp)
  · simpa using h.symm

/-- `insert_one` of a document key into a collection already holding that
key fails with `DuplicateKeyError`. -/
theorem insertOne_append_self {α : Type} (getId : α → String) (coll : List α)
    (doc doc' : α) (hid : getId doc' = getId doc) :
    insertOne getId (coll ++ [doc]) doc' = .error .duplicateKeyError := by
  unfold insertOne
  have hany : (coll ++ [doc]).any (fun d => getId d == getId doc') = true := by
    simp [List.any_append, hid]
  simp [hany]

/-- A handler run that raises leaves the dispatcher's store unchanged. -/
theorem applyHandle_error
    (h : OutboxEvent → String → ProjectionStore → Except HandlerError ProjectionStore)
    (e : OutboxEvent) (now : String) (s : ProjectionStore) (err : HandlerError)
    (hh : h e now s = .error err) : applyHandle h e now s = s := by
  unfold applyHandle
  rw [hh]

/-- Replaying `UserCreated` onto the state its first delivery produced makes
`insert_one` hit the existing `_id` and raise. -/
theorem uc_replay (e : OutboxEvent) (now now' : String) (s s₁ : ProjectionStore)
    (hu : UserCreatedHandler.handle e now s = .ok s₁) :
    UserCreatedHandler.handle e now' s₁ = .error .duplicateKeyError := by
  unfold UserCreatedHandler.handle at hu ⊢
  cases h : insertOne (fun d => d._id) s.users (UserCreatedHandler.user_doc e now) with
  | error err => rw [h] at hu; simp at hu
  | ok users' =>
    rw [h] at hu
    simp only [Except.ok.injEq] at hu
    have hul := insertOne_ok _ _ _ _ h
    subst hu
    subst hul
    have hsel : (({ s with users := s.users ++ [UserCreatedHandler.user_doc e now] } :
        ProjectionStore)).users = s.users ++ [UserCreatedHandler.user_doc e now] := rfl
    rw [hsel, insertOne_append_self (fun d => d._id) s.users
      (UserCreatedHandler.user_doc e now) (UserCreatedHandler.user_doc e now')
      (show (UserCreatedHandler.user_doc e now')._id
          = (UserCreatedHandler.user_doc e now)._id from rfl)]

/-- Replaying `ActivityCreated` onto the state its first delivery produced
makes `insert_one` hit the existing `_id` and raise. -/
theorem ac_replay (e : OutboxEvent) (now now' : String) (s s₁ : ProjectionStore)
    (ha : ActivityCreatedHandler.handle e now s = .ok s₁) :
    ActivityCreatedHandler.handle e now' s₁ = .error .duplicateKeyError := by
  unfold ActivityCreatedHandler.handle at ha ⊢
  cases h : insertOne (fun d => d._id) s.activities
      (ActivityCreatedHandler.activity_doc e now) with
  | error err => rw [h] at ha; simp at ha
  | ok activities' =>
    rw [h] at ha
    simp only [Except.ok.injEq] at ha
    have hal := insertOne_ok _ _ _ _ h
    subst ha
    subst hal
    have hsel : (({ s with activities :=
        s.activities ++ [ActivityCreatedHandler.activity_doc e now] } :
        ProjectionStore)).activities
        = s.activities ++ [ActivityCreatedHandler.activity_doc e now] := rfl
    rw [hsel, insertOne_append_self (fun d => d._id) s.activities
      (ActivityCreatedHandler.activity_doc e now) (ActivityCreatedHandler.activity_doc e now')
      (show (ActivityCreatedHandler.activity_doc e now')._id
          = (ActivityCreatedHandler.activity_doc e now)._id from rfl)]

/-- C2 counterexample: the claim says a second delivery of the same
`UserCreated` event is treated as success by the create handler, the insert
conflict being absorbed.  At the concrete input `eUserCreated` replayed onto
the store its first delivery produced, `UserCreatedHandler.handle`
(`user_handlers.py` 43-65, a bare `insert_one`) raises pymongo's
`DuplicateKeyError` instead: the result is an error, not a success. -/
theorem userCreated_replay_not_absorbed :
    UserCreatedHandler.handle eUserCreated "t2" storeU1 =
      .error .duplicateKeyError := by
  rfl

/-- C2 amended: a second delivery of the same `UserCreated` /
`ActivityCreated` event makes the create handler raise `DuplicateKeyError`
out of `insert_one` (the dispatcher logs it as a handler failure and
continues), and the collection written by the create handler is left exactly
as the first delivery left it. -/
theorem createHandlers_replay_duplicate_raised
    (e e' : OutboxEvent) (now now' : String) (s t s₁ t₁ : ProjectionStore)
    (hu : UserCreatedHandler.handle e now s = .ok s₁)
    (ha : ActivityCreatedHandler.handle e' now t = .ok t₁) :
    UserCreatedHandler.handle e now' s₁ = .error .duplicateKeyError ∧
    applyHandle UserCreatedHandler.handle e now' s₁ = s₁ ∧
    ActivityCreatedHandler.handle e' now' t₁ = .error .duplicateKeyError ∧
    applyHandle ActivityCreatedHandler.handle e' now' t₁ = t₁ := by
  have h1 := uc_replay e now now' s s₁ hu
  have h2 := ac_replay e' now now' t t₁ ha
  exact ⟨h1, applyHandle_error _ _ _ _ _ h1, h2, applyHandle_error _ _ _ _ _ h2⟩

/-- C2 witness: the amended theorem at the sample events and the stores their
first deliveries produce. -/
theorem createHandlers_replay_duplicate_raised_witness :
    UserCreatedHandler.handle eUserCreated "t2" storeU1 =
        .error .duplicateKeyError ∧
    applyHandle UserCreatedHandler.handle eUserCreated "t2" storeU1 = storeU1 ∧
    ActivityCreatedHandler.handle eActivityCreated "t2" storeA1 =
        .error .duplicateKeyError ∧
    applyHandle ActivityCreatedHandler.handle eActivityCreated "t2" storeA1 = storeA1 :=
  createHandlers_replay_duplicate_raised eUserCreated eActivityCreated "t1" "t2"
    emptyStore emptyStore storeU1 storeA1 rfl rfl

/-- The handler names of the dispatch trace whose `handle` was invoked. -/
def invokedHandlers (tr : List ConsumerAction) : List String :=
  tr.filterMap fun a => match a with | .handlerInvoked n => some n | _ => none

/-- The number of `handler_failed` log events in a dispatch trace. -/
def failedCount (tr : List ConsumerAction) : Nat :=
  tr.countP fun a => match a with | .handlerFailed _ => true | _ => false

@[simp] theorem invokedHandlers_nil : invokedHandlers [] = [] := rfl

@[simp] theorem invokedHandlers_cons_invoked (n : String) (tr : List ConsumerAction) :
    invokedHandlers (.handlerInvoked n :: tr) = n :: invokedHandlers tr := rfl

@[simp] theorem invokedHandlers_cons_failed (n : String) (tr : List ConsumerAction) :
    invokedHandlers (.handlerFailed n :: tr) = invokedHandlers tr := rfl

@[simp] theorem invokedHandlers_cons_vfailed (n : String) (tr : List ConsumerAction) :
    invokedHandlers (.validationFailed n :: tr) = invokedHandlers tr := rfl

@[simp] theorem failedCount_nil : failedCount [] = 0 := rfl

@[simp] theorem failedCount_cons_invoked (n : String) (tr : List ConsumerAction) :
    failedCount (.handlerInvoked n :: tr) = failedCount tr := by
  simp [failedCount, List.countP_cons]

@[simp] theorem failedCount_cons_failed (n : String) (tr : List ConsumerAction) :
    failedCount (.handlerFailed n :: tr) = failedCount tr + 1 := by
  simp [failedCount, List.countP_cons]

@[simp] theorem failedCount_cons_vfailed (n : String) (tr : List ConsumerAction) :
    failedCount (.validationFailed n :: tr) = failedCount tr := by
  simp [failedCount, List.countP_cons]

/-- The per-handler loop invokes exactly the validate-passing handlers (in
order) and counts one error per `handler_failed` trace entry. -/
theorem runHandlers_invoked_and_errors (hs : List Handler) (e : OutboxEvent)
    (now : String) (store : ProjectionStore) (errors : Nat) :
    invokedHandlers (runHandlers hs e now store errors).2.2 =
      ((hs.filter fun h => h.validate e).map fun h => h.handler_name) ∧
    (runHandlers hs e now store errors).2.1 =
      errors + failedCount (runHandlers hs e now store errors).2.2 := by
  induction hs generalizing store errors with
  | nil => simp [runHandlers]
  | cons h rest ih =>
    cases hv : h.validate e with
    | false =>
      simp only [runHandlers, hv]
      refine ⟨?_, ?_⟩
      · simp only [invokedHandlers_cons_vfailed, List.filter_cons, hv]
        simpa using (ih store errors).1
      · simp only [failedCount_cons_vfailed]
        exact (ih store errors).2
    | true =>
      simp only [runHandlers, hv]
      cases hh : h.handle e now store with
      | ok store1 =>
        simp only [hh]
        refine ⟨?_, ?_⟩
        · simp only [invokedHandlers_cons_invoked, List.filter_cons, hv]
          simp [(ih store1 errors).1]
        · simp only [failedCount_cons_invoked]
          exact (ih store1 errors).2
      | error err =>
        simp only [hh]
        refine ⟨?_, ?_⟩
        · simp only [invokedHandlers_cons_invoked, invokedHandlers_cons_failed,
            List.filter_cons, hv]
          simp [(ih store (errors + 1)).1]
        · simp only [failedCount_cons_invoked, failedCount_cons_failed]
          have := (ih store (errors + 1)).2
          omega

/-- C4: for every decoded event and every list of handlers registered for
its event type, the per-handler loop of `process_message` (`consumer.py`
126-151) invokes the `handle` of every handler whose `validate` passes, in
registration order, no matter which handlers raise — the invocation list
depends only on the handler list and the event — and the error counter grows
by exactly one per raising handler (one per `handler_failed` log event in
the trace).  A handler failure aborts no sibling handler. -/
theorem handler_failure_isolation (hs : List Handler) (e : OutboxEvent)
    (now : String) (store : ProjectionStore) (errors : Nat) :
    invokedHandlers (runHandlers hs e now store errors).2.2 =
      ((hs.filter fun h => h.validate e).map fun h => h.handler_name) ∧
    (runHandlers hs e now store errors).2.1 =
      errors + failedCount (runHandlers hs e now store errors).2.2 :=
  runHandlers_invoked_and_errors hs e now store errors

/-- A sample `UserUpdated` event targeting user `u999`. -/
def eUserUpdated : OutboxEvent :=
  { event_id := "e4", sequence_id := 4, aggregate_id := "u999",
    aggregate_type := "User", event_type := "UserUpdated",
    payload := [("email", .str "b@x")], status := .pending, retry_count := 0,
    last_error := none, lock_id := none, created_at := "2024-01-03T00:00:00",
    published_at := none }

/-- A sample `ActivityUpdated` event targeting activity `a999`. -/
def eActivityUpdated : OutboxEvent :=
  { event_id := "e5", sequence_id := 5, aggregate_id := "a999",
    aggregate_type := "Activity", event_type := "ActivityUpdated",
    payload := [("title", .str "New")], status := .pending, retry_count := 0,
    last_error := none, lock_id := none, created_at := "2024-01-03T00:00:00",
    published_at := none }

/-- `update_one` with a filter that matches no document writes nothing and
reports `matched_count = 0`. -/
theorem updateOne_no_match {α : Type} (getId : α → String) (coll : List α)
    (i : String) (f : α → α) (h : ∀ d ∈ coll, getId d ≠ i) :
    updateOne getId coll i f = (coll, 0) := by
  induction coll with
  | nil => rfl
  | cons d rest ih =>
    unfold updateOne
    rw [if_neg (h d (by simp))]
    rw [ih fun x hx => h x (by simp [hx])]

/-- C6: when no document of the target collection carries the event's
`aggregate_id`, `UserUpdatedHandler.handle` (`user_handlers.py` 116-124) and
`ActivityUpdatedHandler.handle` (`activity_handlers.py` 163-170) fail with
the code's not-found error — the raised `ValueError` whose message names the
missing document — and the `update_one` that ran first matched nothing, so
the collection is unchanged: no partial write is observable. -/
theorem update_on_missing_not_found (e e' : OutboxEvent) (now : String)
    (s : ProjectionStore)
    (hu : ∀ d ∈ s.users, d._id ≠ e.aggregate_id)
    (ha : ∀ d ∈ s.activities, d._id ≠ e'.aggregate_id) :
    UserUpdatedHandler.handle e now s =
      .error (.valueError ("User not found: " ++ e.aggregate_id)) ∧
    (updateOne (fun d => d._id) s.users e.aggregate_id
      (applyUserSet (buildUserUpdateFields e.payload now e.event_id))).1 = s.users ∧
    ActivityUpdatedHandler.handle e' now s =
      .error (.valueError ("Activity not found: " ++ e'.aggregate_id)) ∧
    (updateOne (fun d => d._id) s.activities e'.aggregate_id
      (applyActivitySet (buildActivityUpdateFields e'.payload now e'.event_id))).1
      = s.activities := by
  have h1 := updateOne_no_match (fun d => d._id) s.users e.aggregate_id
    (applyUserSet (buildUserUpdateFields e.payload now e.event_id)) hu
  have h2 := updateOne_no_match (fun d => d._id) s.activities e'.aggregate_id
    (applyActivitySet (buildActivityUpdateFields e'.payload now e'.event_id)) ha
  refine ⟨?_, by rw [h1], ?_, by rw [h2]⟩
  · simp [UserUpdatedHandler.handle, h1]
  · simp [ActivityUpdatedHandler.handle, h2]

/-- C6 witness: the theorem at the sample update events on the empty store. -/
theorem update_on_missing_not_found_witness :
    UserUpdatedHandler.handle eUserUpdated "t1" emptyStore =
      .error (.valueError ("User not found: " ++ eUserUpdated.aggregate_id)) ∧
    (updateOne (fun d => d._id) emptyStore.users eUserUpdated.aggregate_id
      (applyUserSet (buildUserUpdateFields eUserUpdated.payload "t1"
        eUserUpdated.event_id))).1 = emptyStore.users ∧
    ActivityUpdatedHandler.handle eActivityUpdated "t1" emptyStore =
      .error (.valueError ("Activity not found: " ++ eActivityUpdated.aggregate_id)) ∧
    (updateOne (fun d => d._id) emptyStore.activities eActivityUpdated.aggregate_id
      (applyActivitySet (buildActivityUpdateFields eActivityUpdated.payload "t1"
        eActivityUpdated.event_id))).1 = emptyStore.activities :=
  update_on_missing_not_found eUserUpdated eActivityUpdated "t1" emptyStore
    (by simp [emptyStore]) (by simp [emptyStore])

/-- A successful `UserCreated` handling appends exactly the built user
document. -/
theorem uc_ok (e : OutboxEvent) (now : String) (s s₁ : ProjectionStore)
    (hu : UserCreatedHandler.handle e now s = .ok s₁) :
    s₁ = { s with users := s.users ++ [UserCreatedHandler.user_doc e now] } := by
  unfold UserCreatedHandler.handle at hu
  cases h : insertOne (fun d => d._id) s.users (UserCreatedHandler.user_doc e now) with
  | error err => rw [h] at hu; simp at hu
  | ok users' =>
    rw [h] at hu
    simp only [Except.ok.injEq] at hu
    have hl := insertOne_ok _ _ _ _ h
    subst hu
    rw [hl]

/-- A successful `ActivityCreated` handling appends exactly the built
activity document. -/
theorem ac_ok (e : OutboxEvent) (now : String) (s s₁ : ProjectionStore)
    (ha : ActivityCreatedHandler.handle e now s = .ok s₁) :
    s₁ = { s with activities :=
      s.activities ++ [ActivityCreatedHandler.activity_doc e now] } := by
  unfold ActivityCreatedHandler.handle at ha
  cases h : insertOne (fun d => d._id) s.activities
      (ActivityCreatedHandler.activity_doc e now) with
  | error err => rw [h] at ha; simp at ha
  | ok activities' =>
    rw [h] at ha
    simp only [Except.ok.injEq] at ha
    have hl := insertOne_ok _ _ _ _ h
    subst ha
    rw [hl]

/-- C9: a successful `UserCreated` insert writes a document whose
`allowed_users` is exactly `[aggregate_id]` (`user_handlers.py` 60), and a
successful `ActivityCreated` insert writes a document whose `allowed_users`
is exactly the one-element list holding the payload's `creator_user_id`
(`activity_handlers.py` 59). -/
theorem allowed_users_seed (e e' : OutboxEvent) (now : String)
    (s t s₁ t₁ : ProjectionStore) (uid : Json)
    (hu : UserCreatedHandler.handle e now s = .ok s₁)
    (ha : ActivityCreatedHandler.handle e' now t = .ok t₁)
    (hc : jlookup e'.payload "creator_user_id" = some uid) :
    s₁.users = s.users ++ [UserCreatedHandler.user_doc e now] ∧
    (UserCreatedHandler.user_doc e now).allowed_users = [e.aggregate_id] ∧
    t₁.activities = t.activities ++ [ActivityCreatedHandler.activity_doc e' now] ∧
    (ActivityCreatedHandler.activity_doc e' now).allowed_users = [uid] := by
  have h1 := uc_ok e now s s₁ hu
  have h2 := ac_ok e' now t t₁ ha
  subst h1
  subst h2
  refine ⟨rfl, rfl, rfl, ?_⟩
  show [pget e'.payload "creator_user_id"] = [uid]
  simp [pget, hc]

/-- C9 witness: the theorem at the sample create events on the empty store. -/
theorem allowed_users_seed_witness :
    storeU1.users = emptyStore.users ++ [UserCreatedHandler.user_doc eUserCreated "t1"] ∧
    (UserCreatedHandler.user_doc eUserCreated "t1").allowed_users = ["u1"] ∧
    storeA1.activities =
      emptyStore.activities ++ [ActivityCreatedHandler.activity_doc eActivityCreated "t1"] ∧
    (ActivityCreatedHandler.activity_doc eActivityCreated "t1").allowed_users =
      [Json.str "u0"] :=
  allowed_users_seed eUserCreated eActivityCreated "t1" emptyStore emptyStore
    storeU1 storeA1 (Json.str "u0") rfl rfl rfl

/-- A sample `UserUpdated` event for `u1` whose payload carries only
`first_name`. -/
def eUserUpdFirstOnly : OutboxEvent :=
  { event_id := "e6", sequence_id := 6, aggregate_id := "u1",
    aggregate_type := "User", event_type := "UserUpdated",
    payload := [("first_name", .str "Alice")], status := .pending, retry_count := 0,
    last_error := none, lock_id := none, created_at := "2024-01-04T00:00:00",
    published_at := none }

/-- `storeU1` after `eUserUpdFirstOnly`. -/
def storeU1Upd : ProjectionStore :=
  applyHandle UserUpdatedHandler.handle eUserUpdFirstOnly "t2" storeU1

/-- C7 counterexample: the claim says a payload key that is absent leaves the
corresponding document field unchanged.  Updating user `u1` (whose document
holds `last_name = "B"`) with a payload that carries only
`first_name = "Alice"` makes `UserUpdatedHandler.handle` (`user_handlers.py`
100-105, `payload.get("last_name", "")`) write `last_name = ""` and
`name = "Alice"`: the absent `last_name` key did not leave the field
unchanged. -/
theorem userUpdate_absent_key_overwrites :
    containsKey eUserUpdFirstOnly.payload "last_name" = false ∧
    (storeU1.users.map fun d => d.last_name) = [.str "B"] ∧
    (storeU1Upd.users.map fun d => d.last_name) = [.str ""] ∧
    (storeU1Upd.users.map fun d => d.name) = ["Alice"] :=
  ⟨rfl, rfl, rfl, by decide⟩

/-- C7 amended: the `$set` document of `UserUpdated` (`user_handlers.py`
94-114) applied to a user document changes exactly: `email`, `username`,
`profile.bio`, `profile.avatar_url` if and only if the matching payload key
is present; when `first_name` or `last_name` is present, all three of
`name`, `first_name`, `last_name`, the absent one of the pair taken as the
empty string and `name` being the stripped concatenation
`"<first> <last>"`; and always `metadata.updated_at` and
`metadata.last_event_id`.  All other fields are unchanged. -/
theorem userUpdate_fields_characterization (payload : List (String × Json))
    (now eid : String) (d : UserDoc) :
    let d' := applyUserSet (buildUserUpdateFields payload now eid) d
    d'._id = d._id ∧
    d'.allowed_users = d.allowed_users ∧
    d'.metadata.created_at = d.metadata.created_at ∧
    d'.metadata.source_event_id = d.metadata.source_event_id ∧
    d'.metadata.updated_at = now ∧
    d'.metadata.last_event_id = some eid ∧
    d'.email = (if containsKey payload "email" then pget payload "email" else d.email) ∧
    d'.username =
      (if containsKey payload "username" then pget payload "username" else d.username) ∧
    d'.profile.bio =
      (if containsKey payload "bio" then pget payload "bio" else d.profile.bio) ∧
    d'.profile.avatar_url =
      (if containsKey payload "avatar_url" then pget payload "avatar_url"
       else d.profile.avatar_url) ∧
    d'.name =
      (if containsKey payload "first_name" || containsKey payload "last_name"
       then pyStrip (pyStr (pgetD payload "first_name" (.str "")) ++ " " ++
             pyStr (pgetD payload "last_name" (.str "")))
       else d.name) ∧
    d'.first_name =
      (if containsKey payload "first_name" || containsKey payload "last_name"
       then pgetD payload "first_name" (.str "") else d.first_name) ∧
    d'.last_name =
      (if containsKey payload "first_name" || containsKey payload "last_name"
       then pgetD payload "last_name" (.str "") else d.last_name) := by
  by_cases h1 : containsKey payload "email" = true <;>
  by_cases h2 : containsKey payload "username" = true <;>
  by_cases h3 : (containsKey payload "first_name" || containsKey payload "last_name") = true <;>
  by_cases h4 : containsKey payload "bio" = true <;>
  by_cases h5 : containsKey payload "avatar_url" = true <;>
  simp [buildUserUpdateFields, applyUserSet, h1, h2, h3, h4, h5]

/-- Whether a decode attempt succeeded. -/
def exceptOk {e a : Type} : Except e a → Bool
  | .ok _ => true
  | .error _ => false

/-- C8 counterexample: the claim says a well-formed JSON record carrying
`op`, `ts_ms` and `after` always decodes into an envelope.  The concrete
record `{"op":"c","ts_ms":0,"after":{}}` is well-formed JSON with all three
keys, yet `DebeziumPayload` (`models.py` 44-58) also requires `source`
(a field with no default), so the decode fails. -/
theorem decode_missing_source_fails :
    decodeValue (.json (.obj [("op", .str "c"), ("ts_ms", .num 0),
      ("after", .obj [])])) = .error (.missingField "source") := rfl

/-- C8 amended: the envelope decode fails whenever the raw record is not
well-formed JSON, is not a JSON object, or lacks one of the required keys
`op`, `ts_ms`, `after`, `source` — in particular a record carrying only
`op`, `ts_ms`, `after` does not always decode — and conversely every JSON
object carrying `op` as a string, `ts_ms` as an integer, `after` and
`source` as objects (with `before` absent, null or an object) decodes
successfully.  Wrongly-typed present keys are deliberately not
characterized: pydantic's lax coercions accept some of them (for instance a
numeric string for `ts_ms`). -/
theorem decode_required_keys (j : Json) (fields : List (String × Json))
    (op : String) (ts : Int) (after source : List (String × Json)) :
    exceptOk (decodeValue .malformed) = false ∧
    (j.isObj = false → exceptOk (decodeValue (.json j)) = false) ∧
    ((containsKey fields "op" = false ∨ containsKey fields "ts_ms" = false ∨
      containsKey fields "after" = false ∨ containsKey fields "source" = false) →
      exceptOk (decodeValue (.json (.obj fields))) = false) ∧
    (jlookup fields "op" = some (.str op) →
     jlookup fields "ts_ms" = some (.num ts) →
     jlookup fields "after" = some (.obj after) →
     jlookup fields "source" = some (.obj source) →
     (jlookup fields "before" = none ∨ jlookup fields "before" = some .null ∨
      ∃ b, jlookup fields "before" = some (.obj b)) →
      exceptOk (decodeValue (.json (.obj fields))) = true) := by
  refine ⟨rfl, ?_, ?_, ?_⟩
  · intro hobj
    cases j <;> simp_all [Json.isObj, decodeValue, decodeJson, exceptOk]
  · intro hmiss
    have hnone : ∀ k : String, containsKey fields k = false → jlookup fields k = none := by
      intro k hk
      cases hjk : jlookup fields k with
      | none => rfl
      | some v => rw [containsKey, hjk] at hk; simp at hk
    cases hop : jlookup fields "op" with
    | none => simp [decodeValue, decodeJson, exceptOk, hop]
    | some vop =>
      cases vop <;> try simp [decodeValue, decodeJson, exceptOk, hop]
      case str sop =>
        cases hts : jlookup fields "ts_ms" with
        | none => simp [decodeValue, decodeJson, exceptOk, hop, hts]
        | some vts =>
          cases hco : coerceInt vts with
          | none => simp [decodeValue, decodeJson, exceptOk, hop, hts, hco]
          | some nts =>
            cases haf : jlookup fields "after" with
            | none => simp [decodeValue, decodeJson, decodeRest, exceptOk,
                hop, hts, hco, haf]
            | some vaf =>
              cases vaf <;> try simp [decodeValue, decodeJson, decodeRest, exceptOk,
                hop, hts, hco, haf]
              case obj faf =>
                cases hso : jlookup fields "source" with
                | none => simp [decodeValue, decodeJson, decodeRest, exceptOk,
                    hop, hts, hco, haf, hso]
                | some vso =>
                  exfalso
                  rcases hmiss with h | h | h | h <;>
                    rw [hnone _ h] at * <;> simp_all
  · intro hop hts haf hso hbe
    rcases hbe with hbe | hbe | ⟨b, hbe⟩ <;>
      simp [decodeValue, decodeJson, decodeRest, coerceInt, exceptOk,
        hop, hts, haf, hso, hbe]

/-- C8 witness: the theorem at the concrete record missing `source` (decode
fails) and at the same record with `source` added (decode succeeds). -/
theorem decode_required_keys_witness :
    exceptOk (decodeValue (.json (.obj [("op", .str "c"), ("ts_ms", .num 0),
      ("after", .obj [])]))) = false ∧
    exceptOk (decodeValue (.json (.obj [("op", .str "c"), ("ts_ms", .num 0),
      ("after", .obj []), ("source", .obj [])]))) = true :=
  ⟨(decode_required_keys (.arr []) [("op", .str "c"), ("ts_ms", .num 0),
      ("after", .obj [])] "c" 0 [] []).2.2.1
      (Or.inr (Or.inr (Or.inr rfl))),
   (decode_required_keys (.arr []) [("op", .str "c"), ("ts_ms", .num 0),
      ("after", .obj []), ("source", .obj [])] "c" 0 [] []).2.2.2
      rfl rfl rfl rfl (Or.inl rfl)⟩

/-- Whether an action is one of the three per-handler log events emitted
inside the dispatch loop. -/
def ConsumerAction.isDispatchLog : ConsumerAction → Bool
  | .validationFailed _ => true
  | .handlerInvoked _ => true
  | .handlerFailed _ => true
  | _ => false

/-- Every action of a per-handler-loop trace is a per-handler log event. -/
theorem runHandlers_trace_dispatchLog (hs : List Handler) (e : OutboxEvent)
    (now : String) (store : ProjectionStore) (errors : Nat) :
    ∀ a ∈ (runHandlers hs e now store errors).2.2, a.isDispatchLog = true := by
  induction hs generalizing store errors with
  | nil => simp [runHandlers]
  | cons h rest ih =>
    cases hv : h.validate e with
    | false =>
      simp only [runHandlers, hv]
      intro a ha
      rcases List.mem_cons.mp ha with h1 | h1
      · subst h1; rfl
      · exact ih store errors a h1
    | true =>
      simp only [runHandlers, hv]
      cases hh : h.handle e now store with
      | ok store1 =>
        simp only [hh]
        intro a ha
        rcases List.mem_cons.mp ha with h1 | h1
        · subst h1; rfl
        · exact ih store1 errors a h1
      | error err =>
        simp only [hh]
        intro a ha
        rcases List.mem_cons.mp ha with h1 | h1
        · subst h1; rfl
        · rcases List.mem_cons.mp h1 with h2 | h2
          · subst h2; rfl
          · exact ih store (errors + 1) a h2

/-- `process_message` never commits an offset itself: commits belong to the
`consume` loop. -/
theorem process_message_no_commit (registry : HandlerRegistry) (m : KafkaMessage)
    (now : String) (elapsed : Int) (s : ConsumerState) :
    ∀ a ∈ (process_message registry m now elapsed s).2.2, a.isCommit = false := by
  cases hd : decodeJson m.value with
  | error err => simp [process_message, hd, ConsumerAction.isCommit]
  | ok p =>
    by_cases hop : p.op = "d" ∨ p.op = "r"
    · simp [process_message, hd, hop, ConsumerAction.isCommit]
    · cases he : p.to_outbox_event with
      | error err => simp [process_message, hd, hop, he, ConsumerAction.isCommit]
      | ok event =>
        by_cases hhe : (registryGetHandlers registry event.event_type).isEmpty = true
        · simp [process_message, hd, hop, he, hhe, ConsumerAction.isCommit]
        · intro a ha
          simp [process_message, hd, hop, he, hhe] at ha
          rcases ha with h1 | h1
          · have := runHandlers_trace_dispatchLog (registryGetHandlers registry
              event.event_type) event now s.store s.error_count a h1
            cases a <;> simp_all [ConsumerAction.isDispatchLog, ConsumerAction.isCommit]
          · subst h1; rfl

@[simp] theorem failedCount_append (tr tr2 : List ConsumerAction) :
    failedCount (tr ++ tr2) = failedCount tr + failedCount tr2 := by
  simp [failedCount, List.countP_append]

@[simp] theorem failedCount_eventProcessed (et : String) :
    failedCount [.eventProcessed et] = 0 := rfl

/-- A sample delete-operation record. -/
def mDelete : KafkaMessage :=
  { value := .obj [("op", .str "d"), ("ts_ms", .num 0), ("after", .obj []),
      ("source", .obj [])], partition := 0, offset := 5 }

/-- The envelope `mDelete` decodes to. -/
def pDelete : DebeziumPayload := ⟨"d", 0, none, [], []⟩

/-- C3: with manual commit configured (`enable.auto.commit = false`, the
contract default of `config.py`), the consume loop's trace decomposes into
one block per pulled record, each block being that record's dispatch actions
followed by exactly its offset commit, and no commit occurs inside any
dispatch block: every record — whatever the outcome of its dispatch (decode
failure, skip, no handlers, handler failures or success) — is committed, and
only after its dispatch completes (`consumer.py` 195-205, commit after
`process_message` returns in every outcome since `process_message` catches
all exceptions). -/
theorem consume_commits_each_record (stg : Settings) (registry : HandlerRegistry)
    (now : String) (elapsed : Int) (msgs : List KafkaMessage) (s : ConsumerState)
    (hauto : stg.kafka_enable_auto_commit = false) :
    ∃ inners : List (List ConsumerAction),
      inners.length = msgs.length ∧
      (consume stg registry now elapsed msgs s).2 =
        ((msgs.zip inners).map fun p =>
          p.2 ++ [ConsumerAction.committed p.1.offset]).flatten ∧
      ∀ tr ∈ inners, ∀ a ∈ tr, a.isCommit = false := by
  induction msgs generalizing s with
  | nil => exact ⟨[], rfl, rfl, by simp⟩
  | cons m rest ih =>
    obtain ⟨inners, hlen, htr, hnc⟩ := ih (process_message registry m now elapsed s).1
    refine ⟨(process_message registry m now elapsed s).2.2 :: inners,
      by simp [hlen], ?_, ?_⟩
    · simp only [consume, hauto]
      simp only [List.zip_cons_cons, List.map_cons, List.flatten_cons]
      rw [htr]
      simp [List.append_assoc]
    · intro tr htr' a ha
      rcases List.mem_cons.mp htr' with h1 | h1
      · subst h1
        exact process_message_no_commit registry m now elapsed s a ha
      · exact hnc tr h1 a ha

/-- C5: a record whose envelope decodes with `op` in `{d, r}` is skipped by
`process_message` (`consumer.py` 94-102) before `to_outbox_event` runs: the
consumer state (store, both counters) is returned unchanged, no handler
action appears in the trace (only the `message_skipped` debug log), and the
consume loop still commits the record's offset; a record with `op` in
`{c, u}` is never skipped. -/
theorem skip_semantics (registry : HandlerRegistry) (m : KafkaMessage)
    (now : String) (elapsed : Int) (s : ConsumerState) (p : DebeziumPayload)
    (stg : Settings)
    (hdec : decodeJson m.value = .ok p)
    (hauto : stg.kafka_enable_auto_commit = false) :
    ((p.op = "d" ∨ p.op = "r") →
      process_message registry m now elapsed s = (s, none, [.messageSkipped]) ∧
      consume stg registry now elapsed [m] s =
        (s, [.messageSkipped, .committed m.offset])) ∧
    ((p.op = "c" ∨ p.op = "u") →
      ConsumerAction.messageSkipped ∉ (process_message registry m now elapsed s).2.2) := by
  constructor
  · intro hop
    have h1 : process_message registry m now elapsed s = (s, none, [.messageSkipped]) := by
      rcases hop with h | h <;> simp [process_message, hdec, h]
    refine ⟨h1, ?_⟩
    simp [consume, h1, hauto]
  · intro hcu
    have hop' : ¬(p.op = "d" ∨ p.op = "r") := by
      rcases hcu with h | h <;> simp [h]
    cases he : p.to_outbox_event with
    | error err => simp [process_message, hdec, hop', he]
    | ok event =>
      by_cases hhe : (registryGetHandlers registry event.event_type).isEmpty = true
      · simp [process_message, hdec, hop', he, hhe]
      · intro hmem
        simp [process_message, hdec, hop', he, hhe] at hmem
        have := runHandlers_trace_dispatchLog (registryGetHandlers registry
          event.event_type) event now s.store s.error_count _ hmem
        simp [ConsumerAction.isDispatchLog] at this

/-- C5 witness: the theorem at the concrete delete record `mDelete` on the
initial consumer state with the default settings and the global registry. -/
theorem skip_semantics_witness :
    process_message handler_registry mDelete "t1" 0 ⟨emptyStore, 0, 0⟩ =
      (⟨emptyStore, 0, 0⟩, none, [.messageSkipped]) ∧
    consume settings handler_registry "t1" 0 [mDelete] ⟨emptyStore, 0, 0⟩ =
      (⟨emptyStore, 0, 0⟩, [.messageSkipped, .committed 5]) :=
  (skip_semantics handler_registry mDelete "t1" 0 ⟨emptyStore, 0, 0⟩ pDelete
    settings rfl rfl).1 (Or.inl rfl)

/-- C10: for every record that decodes, has `op` in `{c, u}` and a non-empty
handler list, `process_message` (`consumer.py` 153-171) increments the
processed counter and returns `ProcessingResult` with `success = true` —
whatever the handlers did, since handler exceptions are absorbed inside the
loop — and the error counter accounts exactly the handler failures of the
trace, never the result's success flag. -/
theorem process_success_despite_handler_failures (registry : HandlerRegistry)
    (m : KafkaMessage) (now : String) (elapsed : Int) (s : ConsumerState)
    (p : DebeziumPayload) (event : OutboxEvent)
    (hdec : decodeJson m.value = .ok p)
    (hcu : p.op = "c" ∨ p.op = "u")
    (hev : p.to_outbox_event = .ok event)
    (hhs : (registryGetHandlers registry event.event_type).isEmpty = false) :
    (process_message registry m now elapsed s).1.processing_count =
      s.processing_count + 1 ∧
    (process_message registry m now elapsed s).2.1 =
      some { success := true, event_id := event.event_id,
             event_type := event.event_type, handler_name := "multiple",
             error := none, processing_time_ms := elapsed } ∧
    (process_message registry m now elapsed s).1.error_count =
      s.error_count + failedCount (process_message registry m now elapsed s).2.2 := by
  have hop' : ¬(p.op = "d" ∨ p.op = "r") := by rcases hcu with h | h <;> simp [h]
  have h2 := (runHandlers_invoked_and_errors (registryGetHandlers registry
    event.event_type) event now s.store s.error_count).2
  refine ⟨?_, ?_, ?_⟩ <;>
    simp [process_message, hdec, hop', hev, hhs, h2]

/-- The `after` image of a sample `UserUpdated` outbox row for a user with
no projection document. -/
def afterC10 : List (String × Json) :=
  [("event_id", .str "e9"), ("sequence_id", .num 9), ("aggregate_id", .str "u999"),
   ("aggregate_type", .str "User"), ("event_type", .str "UserUpdated"),
   ("payload", .obj []), ("status", .str "pending"),
   ("created_at", .str "2024-01-05T00:00:00")]

/-- A sample update-operation record carrying `afterC10`. -/
def mUserUpdNoDoc : KafkaMessage :=
  { value := .obj [("op", .str "u"), ("ts_ms", .num 1), ("after", .obj afterC10),
      ("source", .obj [])], partition := 0, offset := 7 }

/-- The envelope `mUserUpdNoDoc` decodes to. -/
def pUserUpdNoDoc : DebeziumPayload := ⟨"u", 1, none, afterC10, []⟩

/-- The event `afterC10` validates to. -/
def eC10 : OutboxEvent :=
  { event_id := "e9", sequence_id := 9, aggregate_id := "u999",
    aggregate_type := "User", event_type := "UserUpdated", payload := [],
    status := .pending, retry_count := 0, last_error := none, lock_id := none,
    created_at := "2024-01-05T00:00:00", published_at := none }

/-- C10 witness: the concrete record `mUserUpdNoDoc` on the empty store makes
its only handler raise (user not found), yet the processed counter becomes 1,
the result is a success, and the failure lands in the error counter. -/
theorem process_success_despite_handler_failures_witness :
    (process_message handler_registry mUserUpdNoDoc "t1" 0
      ⟨emptyStore, 0, 0⟩).1.processing_count = 1 ∧
    (process_message handler_registry mUserUpdNoDoc "t1" 0
      ⟨emptyStore, 0, 0⟩).2.1 =
      some { success := true, event_id := "e9", event_type := "UserUpdated",
             handler_name := "multiple", error := none, processing_time_ms := 0 } ∧
    (process_message handler_registry mUserUpdNoDoc "t1" 0
      ⟨emptyStore, 0, 0⟩).1.error_count =
      failedCount (process_message handler_registry mUserUpdNoDoc "t1" 0
        ⟨emptyStore, 0, 0⟩).2.2 :=
  process_success_despite_handler_failures handler_registry mUserUpdNoDoc "t1" 0
    ⟨emptyStore, 0, 0⟩ pUserUpdNoDoc eC10 rfl (Or.inr rfl) rfl rfl

/-- C3 witness: the theorem at a concrete two-record batch (a delete record
and an update record) with the default settings and the global registry. -/
theorem consume_commits_each_record_witness :
    ∃ inners : List (List ConsumerAction),
      inners.length = [mDelete, mUserUpdNoDoc].length ∧
      (consume settings handler_registry "t1" 0 [mDelete, mUserUpdNoDoc]
        ⟨emptyStore, 0, 0⟩).2 =
        (([mDelete, mUserUpdNoDoc].zip inners).map fun p =>
          p.2 ++ [ConsumerAction.committed p.1.offset]).flatten ∧
      ∀ tr ∈ inners, ∀ a ∈ tr, a.isCommit = false :=
  consume_commits_each_record settings handler_registry "t1" 0
    [mDelete, mUserUpdNoDoc] ⟨emptyStore, 0, 0⟩ rfl
